import Mathlib

/-!
Shallow embedding of the AI-provider proxy: the four provider adapters
(groq, openai, gemini, claude), the routing dispatcher behind
`POST /api/ai/generate`, and the client-side caller
`generatePostWithGemini` with its single-flight guard.

JavaScript strings are modelled as Lean `String`; `undefined`-able values
as `Option`; thrown errors as `Except.error` carrying the error's
`message`; each outbound vendor call is an oracle parameter giving that
call's outcome.
-/

/-- Whitespace test used by the model of JavaScript `String.prototype.trim`. -/
def isWsChar (c : Char) : Bool :=
  c == ' ' || c == '\t' || c == '\n' || c == '\r' || c == Char.ofNat 11 || c == Char.ofNat 12

/-- Drop leading whitespace characters. -/
def dropWsL : List Char → List Char
  | [] => []
  | c :: t => if isWsChar c then dropWsL t else c :: t

/-- Drop trailing whitespace characters. -/
def dropWsR : List Char → List Char
  | [] => []
  | c :: t =>
    match dropWsR t with
    | [] => if isWsChar c then [] else [c]
    | d :: r => c :: d :: r

/-- Model of JavaScript `s.trim()`: drop whitespace at both ends. -/
def jsTrim (s : String) : String :=
  ⟨dropWsR (dropWsL s.data)⟩

/-- Does `hay` begin with `needle` (on character lists)? -/
def charListBegins : List Char → List Char → Bool
  | [], _ => true
  | _ :: _, [] => false
  | a :: as, b :: bs => a == b && charListBegins as bs

/-- Does the character list contain `needle` as a contiguous run? -/
def charListHas (needle : List Char) : List Char → Bool
  | [] => needle.isEmpty
  | c :: t => charListBegins needle (c :: t) || charListHas needle t

/-- Model of JavaScript `hay.includes(needle)`. -/
def strHas (hay needle : String) : Bool :=
  charListHas needle.data hay.data

/-- Model of JavaScript `a || b` where `a` is a possibly-undefined string
and the result is needed as a string (`undefined` and `""` are falsy). -/
def jsOrOptStr (a : Option String) (b : String) : String :=
  match a with
  | none => b
  | some s => if s == "" then b else s

/-- Model of JavaScript `a || b` on two possibly-undefined strings
(first truthy operand wins; `""` is falsy). -/
def jsOr2 (a b : Option String) : Option String :=
  match a with
  | none => b
  | some s => if s == "" then b else some s

deriving instance DecidableEq for Except

/-- A thrown JavaScript error, reduced to the `message` the code reads. -/
structure JsError where
  message : String
deriving Repr, DecidableEq

/-- Normalized adapter success value `{ text, model, provider }`. -/
structure GenerationResult where
  text : String
  model : String
  provider : String
deriving Repr, DecidableEq

/-- Outcome of one `groq.chat.completions.create` call: either the SDK threw,
or it returned a completion whose `choices[0]?.message?.content` is the
given possibly-undefined string. -/
inductive GroqCall where
  | thrown (e : JsError)
  | resp (content : Option String)
deriving Repr, DecidableEq

/-- Groq's fixed model fallback chain. -/
def groqModels : List String :=
  ["llama-3.1-8b-instant", "llama-3.1-70b-versatile", "llama-3-8b-8192", "mixtral-8x7b-32768"]

/-- The groq adapter's recoverable-error test:
`err.message?.includes('model') || err.message?.includes('404')`. -/
def groqMU (e : JsError) : Bool :=
  strHas e.message "model" || strHas e.message "404"

/-- The groq adapter's per-model loop. -/
def groqTry (o : String → GroqCall) : List String → Except JsError GenerationResult
  | [] => .error ⟨"All Groq models failed"⟩
  | m :: rest =>
    match o m with
    | .thrown e => if groqMU e then groqTry o rest else .error e
    | .resp content =>
      match content with
      | none => groqTry o rest
      | some text =>
        if text != "" && jsTrim text != "" then .ok ⟨jsTrim text, m, "groq"⟩
        else groqTry o rest

/-- The groq adapter `aiProviders.groq`. -/
def groq (o : String → GroqCall) : Except JsError GenerationResult :=
  groqTry o groqModels

/-- Outcome of one Gemini `generateContent` call: either some step threw,
or `response.text()` returned the given string. -/
inductive GeminiCall where
  | thrown (e : JsError)
  | resp (text : String)
deriving Repr, DecidableEq

/-- Gemini's fixed model fallback chain. -/
def geminiModels : List String :=
  ["gemini-2.0-flash-exp", "gemini-1.5-flash-latest", "gemini-1.5-pro-latest",
   "gemini-1.5-flash", "gemini-1.5-pro", "gemini-pro"]

/-- The gemini adapter's per-model loop; its `catch` swallows every error. -/
def geminiTry (o : String → GeminiCall) : List String → Except JsError GenerationResult
  | [] => .error ⟨"All Gemini models failed"⟩
  | m :: rest =>
    match o m with
    | .thrown _ => geminiTry o rest
    | .resp text =>
      if text != "" && jsTrim text != "" then .ok ⟨jsTrim text, m, "gemini"⟩
      else geminiTry o rest

/-- The gemini adapter `aiProviders.gemini`. -/
def gemini (o : String → GeminiCall) : Except JsError GenerationResult :=
  geminiTry o geminiModels

/-- Outcome of one OpenAI `fetch` round-trip: either some awaited step threw,
or a response arrived with the given `ok`/`status`, parsed error-body fields
`error.error?.code` / `error.error?.message`, and parsed success-body field
`data.choices[0]?.message?.content`. -/
inductive OpenAiCall where
  | thrown (e : JsError)
  | resp (ok : Bool) (status : Nat) (errCode : Option String) (errMsg : Option String)
      (content : Option String)
deriving Repr, DecidableEq

/-- OpenAI's fixed model fallback chain. -/
def openaiModels : List String :=
  ["gpt-4", "gpt-3.5-turbo", "gpt-4-turbo-preview"]

/-- The openai adapter's `catch`-clause recoverable test:
message includes `model_not_found` or `404`. -/
def openaiCatchMU (e : JsError) : Bool :=
  strHas e.message "model_not_found" || strHas e.message "404"

/-- The openai adapter's per-model loop. -/
def openaiTry (o : String → OpenAiCall) : List String → Except JsError GenerationResult
  | [] => .error ⟨"All OpenAI models failed"⟩
  | m :: rest =>
    match o m with
    | .thrown e => if openaiCatchMU e then openaiTry o rest else .error e
    | .resp ok status errCode errMsg content =>
      if !ok then
        if errCode == some "model_not_found" || status == 404 then openaiTry o rest
        else
          let e : JsError := ⟨jsOrOptStr errMsg "OpenAI API error"⟩
          if openaiCatchMU e then openaiTry o rest else .error e
      else
        match content with
        | none => openaiTry o rest
        | some text =>
          if text != "" && jsTrim text != "" then .ok ⟨jsTrim text, m, "openai"⟩
          else openaiTry o rest

/-- The openai adapter `aiProviders.openai`. -/
def openai (o : String → OpenAiCall) : Except JsError GenerationResult :=
  openaiTry o openaiModels

/-- Outcome of the single Claude `fetch` round-trip: either some awaited step
threw, or a response arrived with the given `ok`, parsed error-body field
`error.error?.message`, and parsed success-body field `data.content[0]?.text`. -/
inductive ClaudeCall where
  | thrown (e : JsError)
  | resp (ok : Bool) (errMsg : Option String) (content : Option String)
deriving Repr, DecidableEq

/-- The claude adapter `aiProviders.claude`: a single fixed model, no fallback
chain, no `try`/`catch` of its own. -/
def claude (c : ClaudeCall) : Except JsError GenerationResult :=
  match c with
  | .thrown e => .error e
  | .resp ok errMsg content =>
    if !ok then .error ⟨jsOrOptStr errMsg "Claude API error"⟩
    else
      match content with
      | none => .error ⟨"No response from Claude"⟩
      | some text =>
        if text == "" then .error ⟨"No response from Claude"⟩
        else .ok ⟨jsTrim text, "claude-3-haiku-20240307", "claude"⟩

/-- Environment variables read by the dispatcher (`process.env.*`), each
possibly absent. -/
structure Env where
  GROQ_API_KEY : Option String
  OPENAI_API_KEY : Option String
  GEMINI_API_KEY : Option String
  BARD_API_KEY : Option String
  ANTHROPIC_API_KEY : Option String
  CLAUDE_API_KEY : Option String
deriving Repr, DecidableEq

/-- The per-dispatch collection of vendor-call outcomes: what each outbound
call would return if made. -/
structure World where
  groqO : String → GroqCall
  openaiO : String → OpenAiCall
  geminiO : String → GeminiCall
  claudeO : ClaudeCall

/-- Parsed request body `{ prompt, provider }`, each field possibly absent. -/
structure ReqBody where
  prompt : Option String
  provider : Option String
deriving Repr, DecidableEq

/-- One part `{ text }` of the success envelope. -/
structure RespPart where
  text : String
deriving Repr, DecidableEq

/-- One content block `{ parts }` of the success envelope. -/
structure RespContent where
  parts : List RespPart
deriving Repr, DecidableEq

/-- One candidate `{ content }` of the success envelope. -/
structure RespCandidate where
  content : RespContent
deriving Repr, DecidableEq

/-- The HTTP 200 response body. -/
structure SuccessBody where
  candidates : List RespCandidate
  provider : String
  model : String
deriving Repr, DecidableEq

/-- A JSON response body: either `{ error }` or the success envelope. -/
inductive RespBody where
  | err (error : String)
  | success (body : SuccessBody)
deriving Repr, DecidableEq

/-- An HTTP response: status code plus JSON body. -/
structure ApiResponse where
  status : Nat
  body : RespBody
deriving Repr, DecidableEq

/-- The destructuring `const { prompt, provider = 'auto' } = req.body`. -/
def effProvider (r : ReqBody) : String :=
  match r.provider with
  | none => "auto"
  | some s => s

/-- Model of JavaScript `s.toLowerCase()`: lower-case each character. -/
def jsToLower (s : String) : String :=
  ⟨s.data.map Char.toLower⟩

/-- The dispatcher's candidate list: the fixed chain on `'auto'` or a falsy
preference, else the single named provider lower-cased. -/
def candidateList (r : ReqBody) : List String :=
  let p := effProvider r
  if p == "auto" || p == "" then ["groq", "openai", "gemini", "claude"]
  else [jsToLower p]

/-- The `switch (providerName)` credential lookup: `none` means the `default:`
branch (unrecognized provider), `some k` the possibly-falsy looked-up key. -/
def resolveKey (env : Env) (p : String) : Option (Option String) :=
  if p == "groq" then some env.GROQ_API_KEY
  else if p == "openai" then some env.OPENAI_API_KEY
  else if p == "gemini" then some (jsOr2 env.GEMINI_API_KEY env.BARD_API_KEY)
  else if p == "claude" then some (jsOr2 env.ANTHROPIC_API_KEY env.CLAUDE_API_KEY)
  else none

/-- JavaScript falsiness of a possibly-undefined string (`!apiKey`). -/
def falsyKey : Option String → Bool
  | none => true
  | some s => s == ""

/-- Look up `aiProviders[providerName]` and run it against the world. -/
def runAdapter (w : World) (p : String) : Option (Except JsError GenerationResult) :=
  if p == "groq" then some (groq w.groqO)
  else if p == "openai" then some (openai w.openaiO)
  else if p == "gemini" then some (gemini w.geminiO)
  else if p == "claude" then some (claude w.claudeO)
  else none

/-- One loop iteration's decision for a candidate provider: `none` when the
candidate is skipped without an attempt (unrecognized name, falsy credential,
or missing adapter), `some outcome` when its adapter is invoked. -/
def attemptProvider (w : World) (env : Env) (p : String) :
    Option (Except JsError GenerationResult) :=
  match resolveKey env p with
  | none => none
  | some k => if falsyKey k then none else runAdapter w p

/-- The dispatcher's provider loop. Returns the result (if any), the final
`lastError`, and the list of providers whose adapter was actually invoked. -/
def tryLoop (w : World) (env : Env) :
    List String → Option String → Option GenerationResult × Option String × List String
  | [], le => (none, le, [])
  | p :: rest, le =>
    match attemptProvider w env p with
    | none => tryLoop w env rest le
    | some (Except.ok res) => (some res, le, [p])
    | some (Except.error e) =>
      let t := tryLoop w env rest (some e.message)
      (t.1, t.2.1, p :: t.2.2)

/-- The HTTP 400 missing-prompt response. -/
def missingPromptResp : ApiResponse :=
  ⟨400, .err "Missing prompt in request body"⟩

/-- The HTTP 500 exhaustion message, built from the final `lastError`. -/
def exhaustMsg (le : Option String) : String :=
  "Failed to generate content. Error: " ++ jsOrOptStr le "All providers failed" ++
    ". Please ensure at least one AI API key is configured in your .env file (GROQ_API_KEY, OPENAI_API_KEY, GEMINI_API_KEY, or ANTHROPIC_API_KEY)."

/-- The `POST /api/ai/generate` handler: validates the prompt, runs the
provider loop, and shapes the success envelope or the failure response.
Also returns the list of providers whose adapter was invoked. -/
def dispatch (w : World) (env : Env) (r : ReqBody) : ApiResponse × List String :=
  match r.prompt with
  | none => (missingPromptResp, [])
  | some pr =>
    if pr == "" then (missingPromptResp, [])
    else
      let t := tryLoop w env (candidateList r) none
      match t.1 with
      | none => (⟨500, .err (exhaustMsg t.2.1)⟩, t.2.2)
      | some res =>
        (⟨200, .success ⟨[⟨⟨[⟨res.text⟩]⟩⟩], res.provider, res.model⟩⟩, t.2.2)

/-- Parsed JSON of the client's view of a response body: the top-level
`error` field and the `candidates?.[0]?.content?.parts?.[0]?.text` path,
each possibly absent. -/
structure ParsedJson where
  errField : Option String
  textField : Option String
deriving Repr, DecidableEq

/-- Outcome of the client's `fetch` round-trip: the fetch rejected, reading
the body text rejected, or a response arrived with the given `ok`, `status`,
`statusText`, raw body text, and its parse result (`none` when
`JSON.parse` throws). -/
inductive FetchOutcome where
  | reject (msg : String)
  | bodyReject (msg : String)
  | resp (ok : Bool) (status : Nat) (statusText : String) (bodyText : String)
      (parsed : Option ParsedJson)
deriving Repr, DecidableEq

/-- The body of the client caller between guard and cleanup: translate the
fetch outcome into a returned trimmed text or a thrown error message. -/
def clientCore (o : FetchOutcome) : Except String String :=
  match o with
  | .reject m =>
    .error ("Network error: " ++ m ++ ". Please check if the server is running on http://localhost:5000")
  | .bodyReject m => .error m
  | .resp ok status statusText bodyText parsed =>
    if !ok then
      let em0 := "Failed to generate content"
      let em1 :=
        match parsed with
        | some pj => jsOrOptStr pj.errField em0
        | none =>
          if bodyText == "" then "HTTP " ++ toString status ++ ": " ++ statusText
          else bodyText
      let em2 :=
        if status == 404 then
          "AI endpoint not found. Please check if the server is running and the route is correct."
        else if status == 500 then
          (if em1 == "" then "Server error. Please check server logs for details." else em1)
        else em1
      .error em2
    else
      match parsed with
      | none => .error "Invalid response from server"
      | some pj =>
        match pj.textField with
        | none => .error "No text generated. Please try again."
        | some t =>
          if t == "" then .error "No text generated. Please try again."
          else .ok (jsTrim t)

/-- The client caller `generatePostWithGemini`, as a transition on the
single-flight flag: given the flag's current value and the fetch outcome,
return (call result, flag value after the call, number of network calls
issued by this call). -/
def generatePostWithGemini (inFlight : Bool) (o : FetchOutcome) :
    Except String String × Bool × Nat :=
  if inFlight then
    (.error "Please wait for the current AI request to finish.", inFlight, 0)
  else
    (clientCore o, false, 1)

/-- The JavaScript default parameter `provider = 'groq'` of the client caller. -/
def defaultProviderArg (a : Option String) : String :=
  match a with
  | none => "groq"
  | some s => s

/-- The request body `JSON.stringify({ prompt, provider })` the client sends. -/
def clientRequestBody (prompt : String) (providerArg : Option String) : ReqBody :=
  ⟨some prompt, some (defaultProviderArg providerArg)⟩

theorem dropWsL_idem : ∀ l : List Char, dropWsL (dropWsL l) = dropWsL l
  | [] => rfl
  | c :: t => by
    cases h : isWsChar c with
    | true => simp [dropWsL, h, dropWsL_idem t]
    | false => simp [dropWsL, h]

theorem dropWsR_idem : ∀ l : List Char, dropWsR (dropWsR l) = dropWsR l
  | [] => rfl
  | c :: t => by
    cases ht : dropWsR t with
    | nil =>
      cases h : isWsChar c with
      | true => simp [dropWsR, ht, h]
      | false => simp [dropWsR, ht, h]
    | cons d r =>
      have ih := dropWsR_idem t
      rw [ht] at ih
      have e1 : dropWsR (c :: t) = c :: d :: r := by simp [dropWsR, ht]
      have e2 : dropWsR (c :: d :: r) =
          match dropWsR (d :: r) with
          | [] => if isWsChar c then [] else [c]
          | d1 :: r1 => c :: d1 :: r1 := rfl
      rw [e1, e2, ih]

theorem dropWs_comm : ∀ l : List Char, dropWsL (dropWsR l) = dropWsR (dropWsL l)
  | [] => rfl
  | c :: t => by
    have ih := dropWs_comm t
    cases h : isWsChar c with
    | true =>
      cases ht : dropWsR t with
      | nil =>
        rw [ht] at ih
        simp [dropWsR, dropWsL, ht, h, ← ih]
      | cons d r =>
        rw [ht] at ih
        have e1 : dropWsR (c :: t) = c :: d :: r := by simp [dropWsR, ht]
        have e2 : dropWsL (c :: d :: r) = dropWsL (d :: r) := by simp [dropWsL, h]
        have e3 : dropWsR (dropWsL (c :: t)) = dropWsR (dropWsL t) := by simp [dropWsL, h]
        rw [e1, e2, e3, ih]
    | false =>
      cases ht : dropWsR t with
      | nil => simp [dropWsR, dropWsL, ht, h]
      | cons d r => simp [dropWsR, dropWsL, ht, h]

theorem jsTrimList_idem (l : List Char) :
    dropWsR (dropWsL (dropWsR (dropWsL l))) = dropWsR (dropWsL l) := by
  rw [dropWs_comm (dropWsL l), dropWsL_idem, dropWsR_idem]

theorem jsTrim_idem (s : String) : jsTrim (jsTrim s) = jsTrim s :=
  congrArg String.mk (jsTrimList_idem s.data)

theorem charListHas_append (n a b : List Char) (h : charListHas n b = true) :
    charListHas n (a ++ b) = true := by
  induction a with
  | nil => simpa using h
  | cons c t ih => simp [charListHas, ih]

theorem strHas_append (a b n : String) (h : strHas b n = true) :
    strHas (a ++ b) n = true := by
  have h' : charListHas n.data b.data = true := h
  show charListHas n.data (a ++ b).data = true
  rw [String.data_append]
  exact charListHas_append _ _ _ h'

theorem tryLoop_skip (w : World) (env : Env) (p : String) (rest : List String)
    (le : Option String) (h : attemptProvider w env p = none) :
    tryLoop w env (p :: rest) le = tryLoop w env rest le := by
  simp [tryLoop, h]

theorem tryLoop_head_ok (w : World) (env : Env) (p : String) (rest : List String)
    (le : Option String) (res : GenerationResult)
    (h : attemptProvider w env p = some (Except.ok res)) :
    tryLoop w env (p :: rest) le = (some res, le, [p]) := by
  simp [tryLoop, h]

theorem tryLoop_head_error (w : World) (env : Env) (p : String) (rest : List String)
    (le : Option String) (e : JsError)
    (h : attemptProvider w env p = some (Except.error e)) :
    tryLoop w env (p :: rest) le =
      ((tryLoop w env rest (some e.message)).1,
        (tryLoop w env rest (some e.message)).2.1,
        p :: (tryLoop w env rest (some e.message)).2.2) := by
  simp [tryLoop, h]

theorem tryLoop_attempted_sublist (w : World) (env : Env) :
    ∀ (ps : List String) (le : Option String), List.Sublist (tryLoop w env ps le).2.2 ps := by
  intro ps
  induction ps with
  | nil => intro le; simp [tryLoop]
  | cons p rest ih =>
    intro le
    cases h : attemptProvider w env p with
    | none =>
      rw [tryLoop_skip w env p rest le h]
      exact (ih le).trans (List.sublist_cons_self p rest)
    | some x =>
      cases x with
      | ok res =>
        rw [tryLoop_head_ok w env p rest le res h]
        exact (List.nil_sublist rest).cons₂ p
      | error e =>
        rw [tryLoop_head_error w env p rest le e h]
        exact (ih (some e.message)).cons₂ p

theorem attemptProvider_some_key (w : World) (env : Env) (p : String)
    (x : Except JsError GenerationResult) (h : attemptProvider w env p = some x) :
    ∃ k, resolveKey env p = some k ∧ falsyKey k = false := by
  unfold attemptProvider at h
  cases hk : resolveKey env p with
  | none => rw [hk] at h; simp at h
  | some k =>
    rw [hk] at h
    cases hf : falsyKey k with
    | true => simp [hf] at h
    | false => exact ⟨k, rfl, hf⟩

theorem tryLoop_attempted_key (w : World) (env : Env) :
    ∀ (ps : List String) (le : Option String) (p : String),
      p ∈ (tryLoop w env ps le).2.2 →
      ∃ k, resolveKey env p = some k ∧ falsyKey k = false := by
  intro ps
  induction ps with
  | nil => intro le p hp; simp [tryLoop] at hp
  | cons q rest ih =>
    intro le p hp
    cases h : attemptProvider w env q with
    | none =>
      rw [tryLoop_skip w env q rest le h] at hp
      exact ih le p hp
    | some x =>
      cases x with
      | ok res =>
        rw [tryLoop_head_ok w env q rest le res h] at hp
        simp at hp
        subst hp
        exact attemptProvider_some_key w env p _ h
      | error e =>
        rw [tryLoop_head_error w env q rest le e h] at hp
        simp at hp
        rcases hp with hp | hp
        · subst hp
          exact attemptProvider_some_key w env p _ h
        · exact ih (some e.message) p hp

theorem dispatch_attempted_sublist (w : World) (env : Env) (r : ReqBody) :
    List.Sublist (dispatch w env r).2 (candidateList r) := by
  cases hp : r.prompt with
  | none => simp [dispatch, hp]
  | some pr =>
    cases hz : (pr == "") with
    | true => simp [dispatch, hp, hz]
    | false =>
      have h := tryLoop_attempted_sublist w env (candidateList r) none
      cases ht : (tryLoop w env (candidateList r) none).1 with
      | none => simpa [dispatch, hp, hz, ht] using h
      | some res => simpa [dispatch, hp, hz, ht] using h

/-- A groq call outcome shaped as a recoverable model-unavailable failure. -/
def groqMUCall : GroqCall → Bool
  | .thrown e => groqMU e
  | .resp _ => false

/-- A gemini call outcome shaped as a recoverable model-unavailable failure
(message contains `model` or `404`). -/
def geminiMUCall : GeminiCall → Bool
  | .thrown e => strHas e.message "model" || strHas e.message "404"
  | .resp _ => false

/-- An openai call outcome shaped as a recoverable model-unavailable failure:
a thrown error whose message the catch clause recognizes, or a non-ok
response with a 404 status, a `model_not_found` code, or an error message
the catch clause recognizes. -/
def openaiMUCall : OpenAiCall → Bool
  | .thrown e => openaiCatchMU e
  | .resp ok status errCode errMsg _ =>
    !ok && ((errCode == some "model_not_found" || status == 404)
      || openaiCatchMU ⟨jsOrOptStr errMsg "OpenAI API error"⟩)

theorem groqTry_mu_skip (o : String → GroqCall) (m : String) (rest : List String)
    (h : groqMUCall (o m) = true) :
    groqTry o (m :: rest) = groqTry o rest := by
  cases hm : o m with
  | thrown e =>
    rw [hm] at h
    simp only [groqMUCall] at h
    simp [groqTry, hm, h]
  | resp c =>
    rw [hm] at h
    simp [groqMUCall] at h

theorem geminiTry_skip (o : String → GeminiCall) (m : String) (rest : List String)
    (e : JsError) (h : o m = .thrown e) :
    geminiTry o (m :: rest) = geminiTry o rest := by
  simp [geminiTry, h]

theorem openaiTry_mu_skip (o : String → OpenAiCall) (m : String) (rest : List String)
    (h : openaiMUCall (o m) = true) :
    openaiTry o (m :: rest) = openaiTry o rest := by
  cases hm : o m with
  | thrown e =>
    rw [hm] at h
    simp only [openaiMUCall] at h
    simp [openaiTry, hm, h]
  | resp ok status errCode errMsg content =>
    rw [hm] at h
    simp only [openaiMUCall] at h
    have hok : ok = false := by
      cases ok
      · rfl
      · simp at h
    subst hok
    simp only [Bool.not_false, Bool.true_and] at h
    cases h1 : (errCode == some "model_not_found" || status == 404) with
    | true => simp [openaiTry, hm, h1]
    | false =>
      rw [h1] at h
      simp only [Bool.false_or] at h
      simp [openaiTry, hm, h1, h]

theorem groqTry_fallback (o : String → GroqCall) :
    ∀ (pre : List String) (m : String) (rest : List String) (text : String),
      (∀ m' ∈ pre, groqMUCall (o m') = true) →
      o m = .resp (some text) →
      (text != "" && jsTrim text != "") = true →
      groqTry o (pre ++ m :: rest) = .ok ⟨jsTrim text, m, "groq"⟩ := by
  intro pre
  induction pre with
  | nil =>
    intro m rest text _ hm ht
    simp [groqTry, hm, ht]
  | cons q qre ih =>
    intro m rest text hpre hm ht
    rw [List.cons_append, groqTry_mu_skip o q _ (hpre q (by simp))]
    exact ih m rest text (fun m' hm' => hpre m' (by simp [hm'])) hm ht

theorem geminiTry_fallback (o : String → GeminiCall) :
    ∀ (pre : List String) (m : String) (rest : List String) (text : String),
      (∀ m' ∈ pre, ∃ e, o m' = .thrown e) →
      o m = .resp text →
      (text != "" && jsTrim text != "") = true →
      geminiTry o (pre ++ m :: rest) = .ok ⟨jsTrim text, m, "gemini"⟩ := by
  intro pre
  induction pre with
  | nil =>
    intro m rest text _ hm ht
    simp [geminiTry, hm, ht]
  | cons q qre ih =>
    intro m rest text hpre hm ht
    obtain ⟨e, he⟩ := hpre q (by simp)
    rw [List.cons_append, geminiTry_skip o q _ e he]
    exact ih m rest text (fun m' hm' => hpre m' (by simp [hm'])) hm ht

theorem openaiTry_fallback (o : String → OpenAiCall) :
    ∀ (pre : List String) (m : String) (rest : List String)
      (status : Nat) (errCode errMsg : Option String) (text : String),
      (∀ m' ∈ pre, openaiMUCall (o m') = true) →
      o m = .resp true status errCode errMsg (some text) →
      (text != "" && jsTrim text != "") = true →
      openaiTry o (pre ++ m :: rest) = .ok ⟨jsTrim text, m, "openai"⟩ := by
  intro pre
  induction pre with
  | nil =>
    intro m rest status errCode errMsg text _ hm ht
    simp [openaiTry, hm, ht]
  | cons q qre ih =>
    intro m rest status errCode errMsg text hpre hm ht
    rw [List.cons_append, openaiTry_mu_skip o q _ (hpre q (by simp))]
    exact ih m rest status errCode errMsg text (fun m' hm' => hpre m' (by simp [hm'])) hm ht

/-- Environment with no credentials configured. -/
def emptyEnv : Env := ⟨none, none, none, none, none, none⟩

/-- Environment with only `GROQ_API_KEY` configured. -/
def groqEnv : Env := ⟨some "k", none, none, none, none, none⟩

/-- A world whose vendors all answer with empty or missing content. -/
def quietWorld : World :=
  ⟨fun _ => .resp none, fun _ => .resp true 200 none none none,
   fun _ => .resp "", .resp true none none⟩

/-- A world whose groq vendor answers `" hi "` for every model. -/
def okWorld : World :=
  ⟨fun _ => .resp (some " hi "), fun _ => .resp true 200 none none none,
   fun _ => .resp "", .resp true none none⟩

/-- A gemini oracle: the first model fails with a non-model-unavailable error,
every later model succeeds. -/
def geminiFatalOracle : String → GeminiCall := fun m =>
  if m == "gemini-2.0-flash-exp" then .thrown ⟨"Invalid API key"⟩ else .resp "hello"

/-- A groq oracle that always fails with a rate-limit error. -/
def groqFatalOracle : String → GroqCall := fun _ => .thrown ⟨"Rate limit exceeded"⟩

/-- A groq oracle that always answers `" hi "`. -/
def groqOkOracle : String → GroqCall := fun _ => .resp (some " hi ")

theorem groqTry_ok_text (o : String → GroqCall) :
    ∀ (ms : List String) (r : GenerationResult),
      groqTry o ms = .ok r → ∃ t, r.text = jsTrim t ∧ jsTrim t ≠ "" := by
  intro ms
  induction ms with
  | nil => intro r h; simp [groqTry] at h
  | cons m rest ih =>
    intro r h
    cases hm : o m with
    | thrown e =>
      cases hmu : groqMU e with
      | true =>
        rw [groqTry_mu_skip o m rest (by simp [groqMUCall, hm, hmu])] at h
        exact ih r h
      | false => simp [groqTry, hm, hmu] at h
    | resp content =>
      cases content with
      | none =>
        have he : groqTry o (m :: rest) = groqTry o rest := by simp [groqTry, hm]
        rw [he] at h
        exact ih r h
      | some text =>
        cases ht : (text != "" && jsTrim text != "") with
        | true =>
          have he : groqTry o (m :: rest) = .ok ⟨jsTrim text, m, "groq"⟩ := by
            simp [groqTry, hm, ht]
          rw [he] at h
          have hr : (⟨jsTrim text, m, "groq"⟩ : GenerationResult) = r := by
            simpa using h
          subst hr
          have ht' := ht
          simp at ht'
          exact ⟨text, rfl, ht'.2⟩
        | false =>
          have he : groqTry o (m :: rest) = groqTry o rest := by simp [groqTry, hm, ht]
          rw [he] at h
          exact ih r h

theorem geminiTry_ok_text (o : String → GeminiCall) :
    ∀ (ms : List String) (r : GenerationResult),
      geminiTry o ms = .ok r → ∃ t, r.text = jsTrim t ∧ jsTrim t ≠ "" := by
  intro ms
  induction ms with
  | nil => intro r h; simp [geminiTry] at h
  | cons m rest ih =>
    intro r h
    cases hm : o m with
    | thrown e =>
      rw [geminiTry_skip o m rest e hm] at h
      exact ih r h
    | resp text =>
      cases ht : (text != "" && jsTrim text != "") with
      | true =>
        have he : geminiTry o (m :: rest) = .ok ⟨jsTrim text, m, "gemini"⟩ := by
          simp [geminiTry, hm, ht]
        rw [he] at h
        have hr : (⟨jsTrim text, m, "gemini"⟩ : GenerationResult) = r := by
          simpa using h
        subst hr
        have ht' := ht
        simp at ht'
        exact ⟨text, rfl, ht'.2⟩
      | false =>
        have he : geminiTry o (m :: rest) = geminiTry o rest := by simp [geminiTry, hm, ht]
        rw [he] at h
        exact ih r h

theorem openaiTry_ok_text (o : String → OpenAiCall) :
    ∀ (ms : List String) (r : GenerationResult),
      openaiTry o ms = .ok r → ∃ t, r.text = jsTrim t ∧ jsTrim t ≠ "" := by
  intro ms
  induction ms with
  | nil => intro r h; simp [openaiTry] at h
  | cons m rest ih =>
    intro r h
    cases hm : o m with
    | thrown e =>
      cases hmu : openaiCatchMU e with
      | true =>
        have he : openaiTry o (m :: rest) = openaiTry o rest := by
          simp [openaiTry, hm, hmu]
        rw [he] at h
        exact ih r h
      | false => simp [openaiTry, hm, hmu] at h
    | resp ok status errCode errMsg content =>
      cases ok with
      | false =>
        cases h1 : (errCode == some "model_not_found" || status == 404) with
        | true =>
          have he : openaiTry o (m :: rest) = openaiTry o rest := by
            simp [openaiTry, hm, h1]
          rw [he] at h
          exact ih r h
        | false =>
          cases h2 : openaiCatchMU ⟨jsOrOptStr errMsg "OpenAI API error"⟩ with
          | true =>
            have he : openaiTry o (m :: rest) = openaiTry o rest := by
              simp [openaiTry, hm, h1, h2]
            rw [he] at h
            exact ih r h
          | false => simp [openaiTry, hm, h1, h2] at h
      | true =>
        cases content with
        | none =>
          have he : openaiTry o (m :: rest) = openaiTry o rest := by
            simp [openaiTry, hm]
          rw [he] at h
          exact ih r h
        | some text =>
          cases ht : (text != "" && jsTrim text != "") with
          | true =>
            have he : openaiTry o (m :: rest) = .ok ⟨jsTrim text, m, "openai"⟩ := by
              simp [openaiTry, hm, ht]
            rw [he] at h
            have hr : (⟨jsTrim text, m, "openai"⟩ : GenerationResult) = r := by
              simpa using h
            subst hr
            have ht' := ht
            simp at ht'
            exact ⟨text, rfl, ht'.2⟩
          | false =>
            have he : openaiTry o (m :: rest) = openaiTry o rest := by
              simp [openaiTry, hm, ht]
            rw [he] at h
            exact ih r h

theorem claude_ok_text (c : ClaudeCall) (r : GenerationResult)
    (h : claude c = .ok r) : ∃ t, r.text = jsTrim t := by
  cases c with
  | thrown e => simp [claude] at h
  | resp ok errMsg content =>
    cases ok with
    | false => simp [claude] at h
    | true =>
      cases content with
      | none => simp [claude] at h
      | some text =>
        cases hz : (text == "") with
        | true => simp [claude, hz] at h
        | false =>
          have he : claude (.resp true errMsg (some text)) =
              .ok ⟨jsTrim text, "claude-3-haiku-20240307", "claude"⟩ := by
            simp [claude, hz]
          rw [he] at h
          have hr : (⟨jsTrim text, "claude-3-haiku-20240307", "claude"⟩ : GenerationResult) = r := by
            simpa using h
          subst hr
          exact ⟨text, rfl⟩

/-- C1 counterexample: the gemini adapter receives the error `Invalid API key`
on its first model attempt — an error that is not a model-unavailable signal
(its message contains neither `model` nor `404` and carries no 404 status) —
yet does not propagate it: it advances to the remaining candidate models and
returns the second model's success. -/
theorem C1_counterexample :
    gemini geminiFatalOracle = .ok ⟨"hello", "gemini-1.5-flash-latest", "gemini"⟩
    ∧ geminiMUCall (geminiFatalOracle "gemini-2.0-flash-exp") = false
    ∧ gemini geminiFatalOracle ≠ .error ⟨"Invalid API key"⟩ := by
  refine ⟨by decide, by decide, by decide⟩

/-- C1 (amended): for the groq, openai and claude adapters, an error raised
during a model attempt that is not that adapter's model-unavailable signal
propagates immediately out of the adapter, aborting its remaining candidate
models; the gemini adapter instead swallows every per-model error, whatever
its kind, and advances to its next candidate model. -/
theorem C1_fatal_error_propagation :
    (∀ (o : String → GroqCall) (m : String) (rest : List String) (e : JsError),
      o m = .thrown e → groqMU e = false →
      groqTry o (m :: rest) = .error e)
    ∧ (∀ (o : String → OpenAiCall) (m : String) (rest : List String) (e : JsError),
      o m = .thrown e → openaiCatchMU e = false →
      openaiTry o (m :: rest) = .error e)
    ∧ (∀ (o : String → OpenAiCall) (m : String) (rest : List String)
        (status : Nat) (errCode errMsg : Option String) (content : Option String),
      o m = .resp false status errCode errMsg content →
      (errCode == some "model_not_found" || status == 404) = false →
      openaiCatchMU ⟨jsOrOptStr errMsg "OpenAI API error"⟩ = false →
      openaiTry o (m :: rest) = .error ⟨jsOrOptStr errMsg "OpenAI API error"⟩)
    ∧ (∀ e : JsError, claude (.thrown e) = .error e)
    ∧ (∀ (o : String → GeminiCall) (m : String) (rest : List String) (e : JsError),
      o m = .thrown e → geminiTry o (m :: rest) = geminiTry o rest) := by
  refine ⟨?_, ?_, ?_, ?_, ?_⟩
  · intro o m rest e hm hmu
    simp [groqTry, hm, hmu]
  · intro o m rest e hm hmu
    simp [openaiTry, hm, hmu]
  · intro o m rest status errCode errMsg content hm h1 h2
    simp [openaiTry, hm, h1, h2]
  · intro e
    rfl
  · intro o m rest e hm
    simp [geminiTry, hm]

/-- C1 (amended) witness: a groq model attempt failing with
`Rate limit exceeded` — not a model-unavailable message — is propagated
as-is, with no later groq model attempted. -/
theorem C1_fatal_error_propagation_witness :
    groqTry groqFatalOracle
        ("llama-3.1-8b-instant" ::
          ["llama-3.1-70b-versatile", "llama-3-8b-8192", "mixtral-8x7b-32768"]) =
      .error ⟨"Rate limit exceeded"⟩ :=
  C1_fatal_error_propagation.1 groqFatalOracle "llama-3.1-8b-instant"
    ["llama-3.1-70b-versatile", "llama-3-8b-8192", "mixtral-8x7b-32768"]
    ⟨"Rate limit exceeded"⟩ rfl (by decide)

/-- C2 counterexample: the claude adapter, given an HTTP-ok response whose
text is the whitespace-only string, passes its truthiness check (`!text`)
and returns a GenerationResult whose text is the empty string — so not every
adapter success has non-empty text. -/
theorem C2_counterexample :
    claude (.resp true none (some "   ")) =
      .ok { text := "", model := "claude-3-haiku-20240307", provider := "claude" } := by
  decide

/-- C2 (amended): every GenerationResult's text equals its own trimmed form;
for the groq, gemini and openai adapters it is additionally non-empty, but
the claude adapter checks only that the raw text is truthy before trimming,
so a whitespace-only vendor text yields an empty (still trimmed) text. -/
theorem C2_result_text_trimmed :
    (∀ (o : String → GroqCall) (ms : List String) (r : GenerationResult),
      groqTry o ms = .ok r → r.text ≠ "" ∧ jsTrim r.text = r.text)
    ∧ (∀ (o : String → GeminiCall) (ms : List String) (r : GenerationResult),
      geminiTry o ms = .ok r → r.text ≠ "" ∧ jsTrim r.text = r.text)
    ∧ (∀ (o : String → OpenAiCall) (ms : List String) (r : GenerationResult),
      openaiTry o ms = .ok r → r.text ≠ "" ∧ jsTrim r.text = r.text)
    ∧ (∀ (c : ClaudeCall) (r : GenerationResult),
      claude c = .ok r → jsTrim r.text = r.text) := by
  refine ⟨?_, ?_, ?_, ?_⟩
  · intro o ms r h
    obtain ⟨t, htext, hne⟩ := groqTry_ok_text o ms r h
    rw [htext]
    exact ⟨hne, jsTrim_idem t⟩
  · intro o ms r h
    obtain ⟨t, htext, hne⟩ := geminiTry_ok_text o ms r h
    rw [htext]
    exact ⟨hne, jsTrim_idem t⟩
  · intro o ms r h
    obtain ⟨t, htext, hne⟩ := openaiTry_ok_text o ms r h
    rw [htext]
    exact ⟨hne, jsTrim_idem t⟩
  · intro c r h
    obtain ⟨t, htext⟩ := claude_ok_text c r h
    rw [htext]
    exact jsTrim_idem t

/-- C2 (amended) witness: a groq run whose vendor answers `" hi "` yields the
result text `hi`, which is non-empty and equal to its own trimmed form. -/
theorem C2_result_text_trimmed_witness :
    ({ text := "hi", model := "llama-3.1-8b-instant", provider := "groq" } :
        GenerationResult).text ≠ ""
    ∧ jsTrim ({ text := "hi", model := "llama-3.1-8b-instant", provider := "groq" } :
        GenerationResult).text =
      ({ text := "hi", model := "llama-3.1-8b-instant", provider := "groq" } :
        GenerationResult).text :=
  C2_result_text_trimmed.1 groqOkOracle groqModels
    ⟨"hi", "llama-3.1-8b-instant", "groq"⟩ rfl

/-- C3: a request whose prompt is missing or empty gets the HTTP 400
`Missing prompt in request body` response, and no provider adapter is
invoked (the attempted-providers list is empty, so no outbound call is
made), whatever the vendors would have answered. -/
theorem C3_missing_prompt (w : World) (env : Env) (r : ReqBody)
    (h : r.prompt = none ∨ r.prompt = some "") :
    dispatch w env r = (⟨400, .err "Missing prompt in request body"⟩, []) := by
  rcases h with h | h <;> simp [dispatch, h, missingPromptResp]

/-- C3 witness: a concrete promptless request is rejected with HTTP 400 and
zero adapter invocations. -/
theorem C3_missing_prompt_witness :
    dispatch quietWorld emptyEnv ⟨none, some "auto"⟩ =
      (⟨400, .err "Missing prompt in request body"⟩, []) :=
  C3_missing_prompt quietWorld emptyEnv ⟨none, some "auto"⟩ (Or.inl rfl)

/-- C4: with an absent or `auto` provider preference the candidate list is
exactly `groq, openai, gemini, claude` in that order; the providers actually
invoked form a subsequence of that list (so each adapter is invoked at most
once, in that order); and whenever the head candidate's adapter succeeds the
loop stops at once, returning that result with no later candidate invoked. -/
theorem C4_auto_chain (w : World) (env : Env) (r : ReqBody)
    (h : r.provider = none ∨ r.provider = some "auto") :
    candidateList r = ["groq", "openai", "gemini", "claude"]
    ∧ List.Sublist (dispatch w env r).2 ["groq", "openai", "gemini", "claude"]
    ∧ ((dispatch w env r).2).Nodup
    ∧ (∀ (p : String) (rest : List String) (le : Option String) (res : GenerationResult),
        attemptProvider w env p = some (Except.ok res) →
        tryLoop w env (p :: rest) le = (some res, le, [p])) := by
  have hc : candidateList r = ["groq", "openai", "gemini", "claude"] := by
    rcases h with h | h <;> simp [candidateList, effProvider, h]
  have hs : List.Sublist (dispatch w env r).2 ["groq", "openai", "gemini", "claude"] := by
    rw [← hc]
    exact dispatch_attempted_sublist w env r
  refine ⟨hc, hs, hs.nodup (by decide), ?_⟩
  intro p rest le res hap
  exact tryLoop_head_ok w env p rest le res hap

/-- C4 witness: the candidate list of a concrete preference-free request is
the fixed four-provider chain, its attempted providers are a subsequence of
the chain with no duplicates. -/
theorem C4_auto_chain_witness :
    candidateList ⟨some "hi", none⟩ = ["groq", "openai", "gemini", "claude"]
    ∧ List.Sublist (dispatch quietWorld emptyEnv ⟨some "hi", none⟩).2
        ["groq", "openai", "gemini", "claude"]
    ∧ ((dispatch quietWorld emptyEnv ⟨some "hi", none⟩).2).Nodup := by
  have h := C4_auto_chain quietWorld emptyEnv ⟨some "hi", none⟩ (Or.inl rfl)
  exact ⟨h.1, h.2.1, h.2.2.1⟩

/-- C5: credential gating. The gemini candidate resolves its key as
`GEMINI_API_KEY || BARD_API_KEY` and the claude candidate as
`ANTHROPIC_API_KEY || CLAUDE_API_KEY`, first non-empty winning; a candidate
whose credential does not resolve to a truthy value is skipped silently —
the loop's result, last error and attempted list are exactly those of the
remaining candidates — and a provider adapter is invoked only when its
credential resolved truthy. -/
theorem C5_credential_gating :
    (∀ env : Env, resolveKey env "gemini" = some (jsOr2 env.GEMINI_API_KEY env.BARD_API_KEY))
    ∧ (∀ env : Env, resolveKey env "claude" = some (jsOr2 env.ANTHROPIC_API_KEY env.CLAUDE_API_KEY))
    ∧ (∀ (s : String) (b : Option String), s ≠ "" → jsOr2 (some s) b = some s)
    ∧ (∀ b : Option String, jsOr2 none b = b ∧ jsOr2 (some "") b = b)
    ∧ (∀ (w : World) (env : Env) (p : String) (rest : List String) (le : Option String),
        attemptProvider w env p = none →
        tryLoop w env (p :: rest) le = tryLoop w env rest le)
    ∧ (∀ (w : World) (env : Env) (ps : List String) (le : Option String) (p : String),
        p ∈ (tryLoop w env ps le).2.2 →
        ∃ k, resolveKey env p = some k ∧ falsyKey k = false) := by
  refine ⟨?_, ?_, ?_, ?_, ?_, ?_⟩
  · intro env; rfl
  · intro env; rfl
  · intro s b hs
    simp [jsOr2, hs]
  · intro b
    exact ⟨rfl, rfl⟩
  · intro w env p rest le h
    exact tryLoop_skip w env p rest le h
  · intro w env ps le p hp
    exact tryLoop_attempted_key w env ps le p hp

/-- C5 witness: with no credentials configured, the groq candidate is skipped
silently and the loop continues with the remaining candidates unchanged. -/
theorem C5_credential_gating_witness :
    tryLoop quietWorld emptyEnv ("groq" :: ["openai"]) none =
      tryLoop quietWorld emptyEnv ["openai"] none :=
  C5_credential_gating.2.2.2.2.1 quietWorld emptyEnv "groq" ["openai"] none rfl

/-- A groq oracle whose first model fails with a model-shaped error and whose
later models answer `" hi "`. -/
def groqC6Oracle : String → GroqCall := fun m =>
  if m == "llama-3.1-8b-instant" then .thrown ⟨"The model does not exist"⟩
  else .resp (some " hi ")

/-- C6: for each adapter with a model fallback chain, when the chain splits
as `pre ++ m :: rest` with every attempt in `pre` failing with a
model-unavailable-shaped error and the attempt at `m` yielding text whose
trimmed form is non-empty, the adapter returns that model's trimmed text and
name as its success, surfacing none of the earlier per-model failures. -/
theorem C6_model_fallback :
    (∀ (o : String → GroqCall) (pre : List String) (m : String) (rest : List String)
        (text : String),
      groqModels = pre ++ m :: rest →
      (∀ m' ∈ pre, groqMUCall (o m') = true) →
      o m = .resp (some text) →
      (text != "" && jsTrim text != "") = true →
      groq o = .ok ⟨jsTrim text, m, "groq"⟩)
    ∧ (∀ (o : String → OpenAiCall) (pre : List String) (m : String) (rest : List String)
        (status : Nat) (errCode errMsg : Option String) (text : String),
      openaiModels = pre ++ m :: rest →
      (∀ m' ∈ pre, openaiMUCall (o m') = true) →
      o m = .resp true status errCode errMsg (some text) →
      (text != "" && jsTrim text != "") = true →
      openai o = .ok ⟨jsTrim text, m, "openai"⟩)
    ∧ (∀ (o : String → GeminiCall) (pre : List String) (m : String) (rest : List String)
        (text : String),
      geminiModels = pre ++ m :: rest →
      (∀ m' ∈ pre, geminiMUCall (o m') = true) →
      o m = .resp text →
      (text != "" && jsTrim text != "") = true →
      gemini o = .ok ⟨jsTrim text, m, "gemini"⟩) := by
  refine ⟨?_, ?_, ?_⟩
  · intro o pre m rest text hmod hpre hm ht
    have h : groqTry o groqModels = .ok ⟨jsTrim text, m, "groq"⟩ := by
      rw [hmod]
      exact groqTry_fallback o pre m rest text hpre hm ht
    exact h
  · intro o pre m rest status errCode errMsg text hmod hpre hm ht
    have h : openaiTry o openaiModels = .ok ⟨jsTrim text, m, "openai"⟩ := by
      rw [hmod]
      exact openaiTry_fallback o pre m rest status errCode errMsg text hpre hm ht
    exact h
  · intro o pre m rest text hmod hpre hm ht
    have hthrown : ∀ m' ∈ pre, ∃ e, o m' = .thrown e := by
      intro m' hm'
      have := hpre m' hm'
      cases hc : o m' with
      | thrown e => exact ⟨e, rfl⟩
      | resp t => rw [hc] at this; simp [geminiMUCall] at this
    have h : geminiTry o geminiModels = .ok ⟨jsTrim text, m, "gemini"⟩ := by
      rw [hmod]
      exact geminiTry_fallback o pre m rest text hthrown hm ht
    exact h

/-- C6 witness: groq's first model fails with `The model does not exist`
(model-unavailable-shaped), its second model answers `" hi "`, and the
adapter returns the second model's trimmed text and name. -/
theorem C6_model_fallback_witness :
    groq groqC6Oracle = .ok ⟨"hi", "llama-3.1-70b-versatile", "groq"⟩ := by
  have h := C6_model_fallback.1 groqC6Oracle ["llama-3.1-8b-instant"]
    "llama-3.1-70b-versatile" ["llama-3-8b-8192", "mixtral-8x7b-32768"] " hi "
    rfl (by decide) rfl (by decide)
  exact h

/-- C7: when the provider loop ends without a success the endpoint responds
HTTP 500 with the exhaustion message built from the last recorded adapter
error (the generic `All providers failed` text when none was recorded); the
message always lists the four credential environment variable names; and a
preference naming a provider unknown to the registry attempts zero providers
and yields the generic exhaustion error. -/
theorem C7_exhaustion :
    (∀ (w : World) (env : Env) (r : ReqBody) (pr : String),
      r.prompt = some pr → (pr == "") = false →
      (tryLoop w env (candidateList r) none).1 = none →
      dispatch w env r =
        (⟨500, .err (exhaustMsg (tryLoop w env (candidateList r) none).2.1)⟩,
          (tryLoop w env (candidateList r) none).2.2))
    ∧ (∀ le : Option String,
        strHas (exhaustMsg le) "GROQ_API_KEY" = true
        ∧ strHas (exhaustMsg le) "OPENAI_API_KEY" = true
        ∧ strHas (exhaustMsg le) "GEMINI_API_KEY" = true
        ∧ strHas (exhaustMsg le) "ANTHROPIC_API_KEY" = true)
    ∧ (exhaustMsg none =
        "Failed to generate content. Error: All providers failed. Please ensure at least one AI API key is configured in your .env file (GROQ_API_KEY, OPENAI_API_KEY, GEMINI_API_KEY, or ANTHROPIC_API_KEY).")
    ∧ (∀ (w : World) (env : Env) (r : ReqBody) (pr p : String),
        r.prompt = some pr → (pr == "") = false →
        r.provider = some p → (p == "auto") = false → (p == "") = false →
        resolveKey env (jsToLower p) = none →
        dispatch w env r = (⟨500, .err (exhaustMsg none)⟩, [])) := by
  refine ⟨?_, ?_, ?_, ?_⟩
  · intro w env r pr hp hz hnone
    simp [dispatch, hp, hz, hnone]
  · intro le
    unfold exhaustMsg
    exact ⟨strHas_append _ _ _ (by rfl), strHas_append _ _ _ (by rfl),
      strHas_append _ _ _ (by rfl), strHas_append _ _ _ (by rfl)⟩
  · rfl
  · intro w env r pr p hp hz hpv ha he hk
    have hcl : candidateList r = [jsToLower p] := by
      simp [candidateList, effProvider, hpv, ha, he]
    have hskip : attemptProvider w env (jsToLower p) = none := by
      simp [attemptProvider, hk]
    have hloop : tryLoop w env [jsToLower p] none = (none, none, []) := by
      rw [tryLoop_skip w env (jsToLower p) [] none hskip]
      rfl
    simp [dispatch, hp, hz, hcl, hloop]

/-- C7 witness: with no credentials configured, a preference-free dispatch
exhausts with every candidate skipped, and returns the HTTP 500 exhaustion
response carrying the final last-error state and attempted list. -/
theorem C7_exhaustion_witness :
    dispatch quietWorld emptyEnv ⟨some "hi", none⟩ =
      (⟨500, .err (exhaustMsg
          (tryLoop quietWorld emptyEnv (candidateList ⟨some "hi", none⟩) none).2.1)⟩,
        (tryLoop quietWorld emptyEnv (candidateList ⟨some "hi", none⟩) none).2.2) :=
  C7_exhaustion.1 quietWorld emptyEnv ⟨some "hi", none⟩ "hi" rfl rfl rfl

/-- C8: every successful dispatch responds HTTP 200 with a body holding
exactly one candidate, holding one content block, holding one parts list
with one part whose text is the chosen result's text, plus flat provider and
model fields equal to the winning vendor's name and model. -/
theorem C8_success_envelope (w : World) (env : Env) (r : ReqBody) (pr : String)
    (res : GenerationResult)
    (hp : r.prompt = some pr) (hz : (pr == "") = false)
    (hres : (tryLoop w env (candidateList r) none).1 = some res) :
    dispatch w env r =
      (⟨200, .success ⟨[⟨⟨[⟨res.text⟩]⟩⟩], res.provider, res.model⟩⟩,
        (tryLoop w env (candidateList r) none).2.2) := by
  simp [dispatch, hp, hz, hres]

/-- C8 witness: with only a groq credential and a groq vendor answering
`" hi "`, the dispatch responds HTTP 200 with the one-candidate envelope
around `hi` and flat fields `groq` / `llama-3.1-8b-instant`. -/
theorem C8_success_envelope_witness :
    dispatch okWorld groqEnv ⟨some "write", none⟩ =
      (⟨200, .success ⟨[⟨⟨[⟨"hi"⟩]⟩⟩], "groq", "llama-3.1-8b-instant"⟩⟩, ["groq"]) := by
  have h := C8_success_envelope okWorld groqEnv ⟨some "write", none⟩ "write"
    ⟨"hi", "llama-3.1-8b-instant", "groq"⟩ rfl rfl (by decide)
  exact h

/-- C9: single-flight guard of the client caller. A call made while the flag
is set fails immediately with the please-wait error and issues no network
call (and leaves the flag to the in-flight call); every call that passes the
guard issues exactly one network call and ends with the flag cleared,
whatever the fetch outcome (success, thrown error, or rejected fetch), so a
subsequent call after any settled guarded call again passes the guard and
issues its network call. -/
theorem C9_single_flight (o o2 : FetchOutcome) :
    generatePostWithGemini true o =
      (.error "Please wait for the current AI request to finish.", true, 0)
    ∧ (generatePostWithGemini false o).2.1 = false
    ∧ (generatePostWithGemini false o).2.2 = 1
    ∧ (generatePostWithGemini ((generatePostWithGemini false o).2.1) o2).2.2 = 1 :=
  ⟨rfl, rfl, rfl, rfl⟩

/-- C10: the client caller defaults its provider argument to `groq` (not
`auto`) and always sends a provider field, so an unmodified client call pins
the dispatcher to the single-element `groq` candidate list, which differs
from the four-provider fallback chain; an explicit argument is sent as-is. -/
theorem C10_client_default_groq (pr : String) (pv : String) :
    (clientRequestBody pr none).provider = some "groq"
    ∧ candidateList (clientRequestBody pr none) = ["groq"]
    ∧ candidateList (clientRequestBody pr none) ≠ ["groq", "openai", "gemini", "claude"]
    ∧ (clientRequestBody pr (some pv)).provider = some pv := by
  refine ⟨rfl, rfl, ?_, rfl⟩
  have h2 : candidateList (clientRequestBody pr none) = ["groq"] := rfl
  rw [h2]
  decide
